import Mathlib

/-!
# Verification of the spotify-stop-ai evidence aggregator and playback monitor

Shallow embedding of `src/spotify_stop_ai/classifier.py` (the
`ArtistClassifier` evidence aggregator), `src/spotify_stop_ai/monitor.py`
(the `PlaybackMonitor` poll loop) and the relevant parts of
`src/spotify_stop_ai/database.py` and `src/spotify_stop_ai/spotify_client.py`.

Conventions of the embedding:
* Python floats are modelled as `ℚ` (all constants in the code are exact
  decimals), timestamps as `Nat` seconds.
* Python dicts that carry classifier results are modelled as structures;
  a dict of source results keeps Python's insertion-iteration order as a
  `List` of name/result pairs.
* An adapter call that raises is an `AdapterOutcome.err`; the aggregator
  turns it into a `success := false` record exactly as the `except` branch
  in `classify_artist` does.
* The database is modelled by the rows the classifier reads and writes:
  `get_override` is an `Option Override` input, `get_cached_decision`
  filters the artist's decision rows (given newest-first, as the SQL
  `ORDER BY timestamp DESC` returns them) by `cached_until > now`.
-/

namespace SpotifyStopAI

/-- One source adapter's result dict (`classifiers/*.py` success shape, or the
`{"success": False, "error": str(e)}` dict built in `classify_artist`). -/
structure SourceResult where
  success : Bool
  result : Option String
  signals : List String
  url : Option String
  query_time_ms : Nat
  error : Option String
deriving Repr, DecidableEq

/-- The decision dict returned by `ArtistClassifier.classify_artist`. -/
structure Decision where
  decision_id : String
  artist_id : String
  artist_name : String
  label : String
  is_artificial : Option Bool
  confidence : ℚ
  sources_agreeing : Nat
  min_required : Nat
  band_policy_applied : Bool
  llm_used : Bool
  decision_reason : String
  sources : List (String × SourceResult)
  llm_fallback : Option String
  cached_until : Option Nat
deriving Repr, DecidableEq

/-- A row of the `overrides` table (`database.py`, `get_override`). -/
structure Override where
  is_artificial : Bool
  reason : Option String
deriving Repr, DecidableEq

/-- A row of the `decisions` table (`database.py` schema). -/
structure DbDecisionRow where
  id : String
  artist_id : String
  timestamp : Nat
  label : String
  is_artificial : Option Bool
  confidence : ℚ
  sources_agreeing : Nat
  min_required : Nat
  band_policy_applied : Bool
  llm_used : Bool
  decision_reason : String
  cached_until : Option Nat
deriving Repr, DecidableEq

/-- The classification-relevant configuration read in
`ArtistClassifier.__init__`. -/
structure ClassifierConfig where
  min_source_agreement : Nat
  band_policy : Bool
  cache_duration : Nat
deriving Repr, DecidableEq

/-- The set `ArtistClassifier.ARTIFICIAL_LABELS`. -/
def ARTIFICIAL_LABELS : List String :=
  ["vocaloid", "vtuber", "virtual_idol", "virtual", "fictional",
   "ai_generated", "virtual_band"]

/-- The test `result_label in self.ARTIFICIAL_LABELS` (a `None` label is in no set). -/
def isArtificialLabel : Option String → Bool
  | some l => l ∈ ARTIFICIAL_LABELS
  | none => false

/-- The test `result_label == "human" or result_label == "band"`. -/
def isHumanLabel : Option String → Bool
  | some l => l = "human" ∨ l = "band"
  | none => false

/-- The results the tally loop of `_aggregate_sources` does not `continue`
past: those with `success` truthy. -/
def successfulResults (rs : List (String × SourceResult)) : List SourceResult :=
  (rs.map Prod.snd).filter (·.success)

/-- The `successful_sources` accumulator of `_aggregate_sources`. -/
def successful_sources (rs : List (String × SourceResult)) : Nat :=
  (successfulResults rs).length

/-- The `artificial_votes` accumulator of `_aggregate_sources`. -/
def artificial_votes (rs : List (String × SourceResult)) : Nat :=
  (successfulResults rs).countP (fun r => isArtificialLabel r.result)

/-- The `human_votes` accumulator of `_aggregate_sources`. -/
def human_votes (rs : List (String × SourceResult)) : Nat :=
  (successfulResults rs).countP (fun r => isHumanLabel r.result)

/-- The label a single result contributes to `labels_found`, if any. -/
def artificialLabelOf (r : SourceResult) : Option String :=
  match r.result with
  | some l => if l ∈ ARTIFICIAL_LABELS then some l else none
  | none => none

/-- The `labels_found` accumulator of `_aggregate_sources`: the artificial labels
in iteration order. -/
def labels_found (rs : List (String × SourceResult)) : List String :=
  (successfulResults rs).filterMap artificialLabelOf

/-- The `reason_parts` / `decision_reason` construction of
`_aggregate_sources`.  Python's `set(labels_found)` iteration order is
modelled as first-occurrence deduplication. -/
def decisionReasonFor (cfg : ClassifierConfig) (a h s : Nat)
    (labels : List String) (is_art : Option Bool) (bpa : Bool) : String :=
  match is_art with
  | none =>
      "Inconclusive: " ++ toString a ++ " artificial, " ++ toString h ++
      " human out of " ++ toString s ++ " successful sources. Threshold: " ++
      toString cfg.min_source_agreement ++ " required"
  | some b =>
      String.intercalate ". "
        ((if b then
            ["Classified as artificial: " ++ toString a ++ "/" ++ toString s ++
             " sources agree. Labels: " ++ String.intercalate ", " labels.dedup]
          else
            ["Classified as human: " ++ toString h ++ "/" ++ toString s ++
             " sources agree"]) ++
         (if bpa then ["Band policy applied (any virtual/fictional = artificial)"]
          else []) ++
         ["Threshold: " ++ toString cfg.min_source_agreement ++ " sources required"])

/-- The `if/elif` decision chain of `_aggregate_sources` (lines 161–181):
`(is_artificial, confidence, label, band_policy_applied)`, with
`numClassifiers = len(self.classifiers)` as divisor. -/
def vote_outcome (cfg : ClassifierConfig) (numClassifiers : Nat)
    (source_results : List (String × SourceResult)) :
    Option Bool × ℚ × String × Bool :=
  if cfg.min_source_agreement ≤ artificial_votes source_results then
    (some true,
     min 1 ((artificial_votes source_results : ℚ) / (numClassifiers : ℚ)),
     (labels_found source_results).headD "artificial", false)
  else if cfg.band_policy ∧ 0 < artificial_votes source_results ∧
      human_votes source_results = 0 then
    (some true,
     min (4/5 : ℚ) ((artificial_votes source_results : ℚ) / (numClassifiers : ℚ)),
     (labels_found source_results).headD "artificial", true)
  else if cfg.min_source_agreement ≤ human_votes source_results then
    (some false,
     min 1 ((human_votes source_results : ℚ) / (numClassifiers : ℚ)),
     "human", false)
  else
    (none, 0, "unknown", false)

/-- The method `ArtistClassifier._aggregate_sources`.  `numClassifiers` is
`len(self.classifiers)`; `now` is `datetime.utcnow()` in seconds. -/
def aggregate_sources (cfg : ClassifierConfig) (numClassifiers : Nat)
    (artist_id artist_name : String) (now : Nat)
    (source_results : List (String × SourceResult)) : Decision :=
  { decision_id := "decision_" ++ artist_id ++ "_" ++ toString now
    artist_id := artist_id
    artist_name := artist_name
    label := (vote_outcome cfg numClassifiers source_results).2.2.1
    is_artificial := (vote_outcome cfg numClassifiers source_results).1
    confidence := (vote_outcome cfg numClassifiers source_results).2.1
    sources_agreeing :=
      if (vote_outcome cfg numClassifiers source_results).1 = some true then
        artificial_votes source_results
      else human_votes source_results
    min_required := cfg.min_source_agreement
    band_policy_applied := (vote_outcome cfg numClassifiers source_results).2.2.2
    llm_used := false
    decision_reason :=
      decisionReasonFor cfg (artificial_votes source_results)
        (human_votes source_results) (successful_sources source_results)
        (labels_found source_results)
        (vote_outcome cfg numClassifiers source_results).1
        (vote_outcome cfg numClassifiers source_results).2.2.2
    sources := source_results
    llm_fallback := none
    cached_until := some (now + cfg.cache_duration) }

/-- The rationale text built from the override's `reason` value: the
`reason` key is always present in the `dict(row)` that `get_override`
returns (the column may be NULL), so `override.get('reason', 'Manual
classification')` yields the stored value and the f-string renders a NULL
reason as `None`. -/
def pyStr (reason : Option String) : String :=
  match reason with
  | some r => r
  | none => "None"

/-- The override branch of `classify_artist` (lines 73–90). -/
def override_decision (cfg : ClassifierConfig) (artist_id artist_name : String)
    (now : Nat) (ov : Override) : Decision :=
  { decision_id := "override_" ++ artist_id ++ "_" ++ toString now
    artist_id := artist_id
    artist_name := artist_name
    label := "override"
    is_artificial := some ov.is_artificial
    confidence := 1
    sources_agreeing := 0
    min_required := cfg.min_source_agreement
    band_policy_applied := false
    llm_used := false
    decision_reason := "User override: " ++ pyStr ov.reason
    sources := []
    llm_fallback := none
    cached_until := none }

/-- The method `ArtistClassifier._decision_from_db`: reconstructs a decision dict from a
`decisions` row; `artist_name` and `sources` are not stored in that table and
come back as `""` and `{}`. -/
def decision_from_db (r : DbDecisionRow) : Decision :=
  { decision_id := r.id
    artist_id := r.artist_id
    artist_name := ""
    label := r.label
    is_artificial := r.is_artificial
    confidence := r.confidence
    sources_agreeing := r.sources_agreeing
    min_required := r.min_required
    band_policy_applied := r.band_policy_applied
    llm_used := r.llm_used
    decision_reason := r.decision_reason
    sources := []
    llm_fallback := none
    cached_until := r.cached_until }

/-- The method `Database.insert_decision`: the columns of the row written for a
decision (`ts` is the `datetime.utcnow()` of the insert). -/
def insert_decision_row (d : Decision) (ts : Nat) : DbDecisionRow :=
  { id := d.decision_id
    artist_id := d.artist_id
    timestamp := ts
    label := d.label
    is_artificial := d.is_artificial
    confidence := d.confidence
    sources_agreeing := d.sources_agreeing
    min_required := d.min_required
    band_policy_applied := d.band_policy_applied
    llm_used := d.llm_used
    decision_reason := d.decision_reason
    cached_until := d.cached_until }

/-- The method `Database.get_cached_decision`: among this artist's decision rows
(given newest-first, as `ORDER BY timestamp DESC` returns them), the first
with `cached_until > now`; a NULL `cached_until` never satisfies the SQL
comparison. -/
def get_cached_decision (rows : List DbDecisionRow) (now : Nat) :
    Option DbDecisionRow :=
  (rows.filter (fun r =>
    match r.cached_until with
    | some c => now < c
    | none => false)).head?

/-- One configured source adapter call: the value `await classifier.classify`
returns, or the exception it raises. -/
inductive AdapterOutcome where
  | ok (r : SourceResult)
  | err (e : String)
deriving Repr, DecidableEq

/-- The entry `classify_artist` puts into `source_results` for one adapter:
the result on success, `{"success": False, "error": str(e)}` on exception. -/
def outcome_result : AdapterOutcome → SourceResult
  | .ok r => r
  | .err e =>
      { success := false, result := none, signals := [], url := none,
        query_time_ms := 0, error := some e }

/-- The `source_results` dict `classify_artist` builds over
`self.classifiers.items()` (insertion order preserved). -/
def source_results_of (classifiers : List (String × AdapterOutcome)) :
    List (String × SourceResult) :=
  classifiers.map (fun p => (p.1, outcome_result p.2))

/-- Observable side effects of one `classify_artist` call: how many source
adapters were invoked, and the decision passed to `_store_decision` (if any). -/
structure ClassifyEffects where
  sources_queried : Nat
  stored : Option Decision
deriving Repr, DecidableEq

/-- The method `ArtistClassifier.classify_artist`.  `classifiers` is
`self.classifiers` with each adapter's behaviour on this artist attached;
`override` is the `get_override` result, `db_rows` the artist's decision
rows (newest first) that `get_cached_decision` filters. -/
def classify_artist (cfg : ClassifierConfig)
    (classifiers : List (String × AdapterOutcome))
    (override : Option Override) (db_rows : List DbDecisionRow)
    (artist_id artist_name : String) (now : Nat) :
    Decision × ClassifyEffects :=
  match override with
  | some ov =>
      (override_decision cfg artist_id artist_name now ov,
       { sources_queried := 0, stored := none })
  | none =>
      match get_cached_decision db_rows now with
      | some row =>
          (decision_from_db row, { sources_queried := 0, stored := none })
      | none =>
          let source_results := source_results_of classifiers
          let d := aggregate_sources cfg classifiers.length artist_id
            artist_name now source_results
          (d, { sources_queried := classifiers.length, stored := some d })

/-! ## Playback monitor (`monitor.py`) and Spotify client (`spotify_client.py`) -/

/-- One entry of a track item's `artists` list. -/
structure ArtistRef where
  id : String
  name : String
deriving Repr, DecidableEq

/-- A track item as read by `_monitor_cycle` (`item["id"]`, `item["name"]`,
`item["artists"]`). -/
structure TrackItem where
  id : String
  name : String
  artists : List ArtistRef
deriving Repr, DecidableEq

/-- The playback snapshot's `item` field: a track, or a non-track item
(`item.get("type") != "track"`, e.g. an episode/ad). -/
inductive PlayItem where
  | track (t : TrackItem)
  | other (ty : String)
deriving Repr, DecidableEq

/-- The playback dict fields `_monitor_cycle` reads. -/
structure PlaybackSnapshot where
  is_playing : Bool
  item : Option PlayItem
deriving Repr, DecidableEq

/-- What `self.spotify.get_current_playback()` evaluated to at the top of a
cycle: a falsy value (`None`), the `"rate_limited"` sentinel string the
monitor tests for, or a playback snapshot. -/
inductive CycleInput where
  | noPlayback
  | rateLimited
  | snap (p : PlaybackSnapshot)
deriving Repr, DecidableEq

/-- The monitor configuration read in `PlaybackMonitor.__init__`. -/
structure MonitorConfig where
  poll_interval : ℚ
  rate_limit_backoff : ℚ
  max_backoff : ℚ
deriving Repr, DecidableEq

/-- The `current_track` projection kept for the web UI. -/
structure CurrentTrack where
  track_id : String
  track_name : String
  artist_id : Option String
  artist_name : String
  timestamp : Nat
deriving Repr, DecidableEq

/-- The mutable session state of `PlaybackMonitor` that `_monitor_cycle`
touches. -/
structure MonitorState where
  current_backoff : ℚ
  last_track_id : Option String
  processed_tracks : List String
  current_track : Option CurrentTrack
deriving Repr, DecidableEq

/-- The state `PlaybackMonitor.__init__` sets up (before `start()`). -/
def monitor_init (cfg : MonitorConfig) : MonitorState :=
  { current_backoff := cfg.poll_interval
    last_track_id := none
    processed_tracks := []
    current_track := none }

/-- The method `PlaybackMonitor._monitor_cycle`.  Returns the new state together with
the track handed to `_process_track` (which logs the Play, classifies the
primary artist and runs the action engine), if any.  `now` is
`datetime.now()` in seconds. -/
def monitor_cycle (cfg : MonitorConfig) (now : Nat) (s : MonitorState)
    (i : CycleInput) : MonitorState × Option TrackItem :=
  match i with
  | .noPlayback =>
      ({ s with current_backoff := cfg.poll_interval }, none)
  | .rateLimited =>
      ({ s with current_backoff :=
          (min (s.current_backoff * cfg.rate_limit_backoff) cfg.max_backoff) },
       none)
  | .snap p =>
      let s1 := { s with current_backoff := cfg.poll_interval }
      if !p.is_playing then (s1, none)
      else
        match p.item with
        | none => (s1, none)
        | some (.other _) => (s1, none)
        | some (.track t) =>
            let ct : CurrentTrack :=
              { track_id := t.id
                track_name := t.name
                artist_id := t.artists.head?.map (·.id)
                artist_name := (t.artists.head?.map (·.name)).getD "Unknown"
                timestamp := now }
            let s2 := { s1 with current_track := some ct }
            if s2.last_track_id = some t.id then (s2, none)
            else
              let s3 := { s2 with last_track_id := some t.id }
              if t.id ∈ s3.processed_tracks then (s3, none)
              else
                ({ s3 with processed_tracks := t.id :: s3.processed_tracks },
                 some t)

/-- A run of monitor cycles: final state and the ids of the tracks handed to
`_process_track`, in order. -/
def run_monitor (cfg : MonitorConfig) (s : MonitorState)
    (inputs : List (Nat × CycleInput)) : MonitorState × List String :=
  match inputs with
  | [] => (s, [])
  | (now, i) :: rest =>
      let c := monitor_cycle cfg now s i
      let r := run_monitor cfg c.1 rest
      (r.1, (c.2.map (·.id)).toList ++ r.2)

/-- The backoff value after each cycle of a run. -/
def backoff_trace (cfg : MonitorConfig) (s : MonitorState)
    (inputs : List (Nat × CycleInput)) : List ℚ :=
  match inputs with
  | [] => []
  | (now, i) :: rest =>
      let s' := (monitor_cycle cfg now s i).1
      s'.current_backoff :: backoff_trace cfg s' rest

/-- What the Spotify Web API call inside
`SpotifyClient.get_current_playback` did: returned a (possibly `None`)
playback dict, or raised (any exception, rate-limit 429s included). -/
inductive ProviderOutcome where
  | resp (p : Option PlaybackSnapshot)
  | raised (e : String)
deriving Repr, DecidableEq

/-- The method `SpotifyClient.get_current_playback`: `None` when unauthenticated, the
API's value on success, `None` on any exception. -/
def get_current_playback (authenticated : Bool) (o : ProviderOutcome) :
    Option PlaybackSnapshot :=
  if !authenticated then none
  else
    match o with
    | .resp p => p
    | .raised _ => none

/-- The cycle input `_monitor_cycle` sees when its playback comes from
`SpotifyClient.get_current_playback` (a falsy `None` or a dict — the client
returns no `"rate_limited"` sentinel). -/
def client_cycle_input (authenticated : Bool) (o : ProviderOutcome) :
    CycleInput :=
  match get_current_playback authenticated o with
  | none => .noPlayback
  | some p => .snap p

/-! ## Concrete inputs used to exercise the model (spec §8 scenarios) -/

/-- A successful adapter result carrying label `l`. -/
def okRes (l : String) : SourceResult :=
  { success := true, result := some l, signals := [], url := none,
    query_time_ms := 5, error := none }

/-- Scenario A/B configuration: `min_source_agreement = 2`, band policy on,
one-hour cache. -/
def cfgA : ClassifierConfig :=
  { min_source_agreement := 2, band_policy := true, cache_duration := 3600 }

/-- Scenario A adapters: Wikidata → "vocaloid", MusicBrainz → "vtuber",
Last.fm raises. -/
def clsA : List (String × AdapterOutcome) :=
  [("wikidata", .ok (okRes "vocaloid")),
   ("musicbrainz", .ok (okRes "vtuber")),
   ("lastfm", .err "timeout")]

/-- The fresh Scenario A decision (no override, empty decision table). -/
def dA : Decision := (classify_artist cfgA clsA none [] "a1" "Miku" 100).1

/-- The `decisions` row `_store_decision` writes for `dA`. -/
def rowA : DbDecisionRow := insert_decision_row dA 100

/-- Scenario B adapters: only Wikidata succeeds, with "fictional". -/
def clsB : List (String × AdapterOutcome) :=
  [("wikidata", .ok (okRes "fictional")),
   ("musicbrainz", .err "x"),
   ("lastfm", .err "y")]

/-- Three adapters that all raise. -/
def clsFail : List (String × AdapterOutcome) :=
  [("wikidata", .err "e1"), ("musicbrainz", .err "e2"), ("lastfm", .err "e3")]

/-- Scenario D monitor configuration: base 2s, multiplier 2, cap 30s. -/
def mcfgD : MonitorConfig :=
  { poll_interval := 2, rate_limit_backoff := 2, max_backoff := 30 }

/-- A playing snapshot for track id `i` (one artist). -/
def snapOf (i : String) : CycleInput :=
  .snap { is_playing := true,
          item := some (.track
            { id := i, name := i, artists := [{ id := "ar", name := "A" }] }) }

/-- Five consecutive rate-limit cycles (Scenario D). -/
def rlInputs5 : List (Nat × CycleInput) :=
  [(0, .rateLimited), (1, .rateLimited), (2, .rateLimited),
   (3, .rateLimited), (4, .rateLimited)]

/-- A session where track `t1` recurs after other tracks played. -/
def sessionInputs : List (Nat × CycleInput) :=
  [(0, snapOf "t1"), (1, snapOf "t2"), (2, snapOf "t1"),
   (3, snapOf "t1"), (4, snapOf "t3")]

/-- A concrete override (user asserts artificial). -/
def ovA : Override := { is_artificial := true, reason := some "manual check" }

/-! ## Helper lemmas about the tally -/

/-- Counting the entries where `f` produces a value is the length of the
`filterMap`. -/
theorem countP_isSome_eq_length_filterMap {α β : Type} (f : α → Option β)
    (l : List α) :
    l.countP (fun a => (f a).isSome) = (l.filterMap f).length := by
  induction l with
  | nil => rfl
  | cons x t ih =>
    rw [List.countP_cons, List.filterMap_cons]
    cases hx : f x with
    | none => simp [hx, ih]
    | some b => simp [hx, ih]

/-- The artificial-vote test succeeds exactly when `artificialLabelOf`
collects a label. -/
theorem isArtificialLabel_eq_isSome (r : SourceResult) :
    isArtificialLabel r.result = (artificialLabelOf r).isSome := by
  unfold isArtificialLabel artificialLabelOf
  cases r.result with
  | none => rfl
  | some l => by_cases hl : l ∈ ARTIFICIAL_LABELS <;> simp [hl]

/-- Each artificial vote contributes exactly one entry to `labels_found`:
the vote count equals the length of the collected label list. -/
theorem artificial_votes_eq_labels_length (rs : List (String × SourceResult)) :
    artificial_votes rs = (labels_found rs).length := by
  unfold artificial_votes labels_found
  rw [List.countP_congr (fun r _ => by rw [isArtificialLabel_eq_isSome r])]
  exact countP_isSome_eq_length_filterMap _ _

/-- At most one artificial vote per source-result entry. -/
theorem artificial_votes_le (rs : List (String × SourceResult)) :
    artificial_votes rs ≤ rs.length := by
  calc artificial_votes rs ≤ (successfulResults rs).length :=
        List.countP_le_length _
    _ ≤ (rs.map Prod.snd).length := List.length_filter_le _ _
    _ = rs.length := List.length_map _ _

/-- At most one human vote per source-result entry. -/
theorem human_votes_le (rs : List (String × SourceResult)) :
    human_votes rs ≤ rs.length := by
  calc human_votes rs ≤ (successfulResults rs).length :=
        List.countP_le_length _
    _ ≤ (rs.map Prod.snd).length := List.length_filter_le _ _
    _ = rs.length := List.length_map _ _

/-- The map `source_results_of` keeps one entry per configured classifier. -/
theorem source_results_of_length (cls : List (String × AdapterOutcome)) :
    (source_results_of cls).length = cls.length :=
  List.length_map _ _

/-- If every entry is `success = false`, the tally loop skips everything. -/
theorem successfulResults_eq_nil (rs : List (String × SourceResult))
    (h : ∀ p ∈ rs, p.2.success = false) : successfulResults rs = [] := by
  unfold successfulResults
  rw [List.filter_eq_nil_iff]
  intro r hr
  obtain ⟨p, hp, rfl⟩ := List.mem_map.mp hr
  simp [h p hp]

/-- A nonempty list's `head?` is its `headD`. -/
theorem head?_eq_headD {α : Type} (l : List α) (d : α) (h : l ≠ []) :
    l.head? = some (l.headD d) := by
  cases l with
  | nil => exact absurd rfl h
  | cons x xs => rfl

/-! ## Helper lemmas about the voting branches -/

/-- Branch 1 of the voting chain: enough artificial agreement. -/
theorem vote_outcome_artificial (cfg : ClassifierConfig) (n : Nat)
    (rs : List (String × SourceResult))
    (h : cfg.min_source_agreement ≤ artificial_votes rs) :
    vote_outcome cfg n rs =
      (some true, min 1 ((artificial_votes rs : ℚ) / (n : ℚ)),
       (labels_found rs).headD "artificial", false) := by
  unfold vote_outcome
  rw [if_pos h]

/-- Branch 2 of the voting chain: the band-policy fallback. -/
theorem vote_outcome_band (cfg : ClassifierConfig) (n : Nat)
    (rs : List (String × SourceResult))
    (h1 : ¬ cfg.min_source_agreement ≤ artificial_votes rs)
    (h2 : cfg.band_policy ∧ 0 < artificial_votes rs ∧ human_votes rs = 0) :
    vote_outcome cfg n rs =
      (some true, min (4/5 : ℚ) ((artificial_votes rs : ℚ) / (n : ℚ)),
       (labels_found rs).headD "artificial", true) := by
  unfold vote_outcome
  rw [if_neg h1, if_pos h2]

/-- Branch 4 of the voting chain: inconclusive. -/
theorem vote_outcome_inconclusive (cfg : ClassifierConfig) (n : Nat)
    (rs : List (String × SourceResult))
    (h1 : ¬ cfg.min_source_agreement ≤ artificial_votes rs)
    (h2 : ¬ (cfg.band_policy ∧ 0 < artificial_votes rs ∧ human_votes rs = 0))
    (h3 : ¬ cfg.min_source_agreement ≤ human_votes rs) :
    vote_outcome cfg n rs = (none, 0, "unknown", false) := by
  unfold vote_outcome
  rw [if_neg h1, if_neg h2, if_neg h3]

/-- With no recorded votes and a threshold of at least 1, the chain falls
through to the inconclusive branch. -/
theorem vote_outcome_of_no_votes (cfg : ClassifierConfig) (n : Nat)
    (rs : List (String × SourceResult))
    (hmin : 1 ≤ cfg.min_source_agreement)
    (ha : artificial_votes rs = 0) (hh : human_votes rs = 0) :
    vote_outcome cfg n rs = (none, 0, "unknown", false) := by
  apply vote_outcome_inconclusive
  · omega
  · rintro ⟨-, h2, -⟩
    omega
  · omega

/-- The band-policy flag is set exactly when the band branch fires, and then
the decision is artificial with the capped confidence. -/
theorem vote_outcome_band_iff (cfg : ClassifierConfig) (n : Nat)
    (rs : List (String × SourceResult)) :
    ((vote_outcome cfg n rs).2.2.2 = true ↔
      (cfg.band_policy = true ∧ 0 < artificial_votes rs ∧
       human_votes rs = 0 ∧
       artificial_votes rs < cfg.min_source_agreement)) ∧
    ((vote_outcome cfg n rs).2.2.2 = true →
      (vote_outcome cfg n rs).1 = some true ∧
      (vote_outcome cfg n rs).2.1 =
        min (4/5 : ℚ) ((artificial_votes rs : ℚ) / (n : ℚ))) := by
  by_cases h1 : cfg.min_source_agreement ≤ artificial_votes rs
  · rw [vote_outcome_artificial cfg n rs h1]
    constructor
    · simp only [Bool.false_eq_true, false_iff]
      rintro ⟨-, -, -, hlt⟩
      omega
    · simp
  · by_cases h2 : cfg.band_policy = true ∧ 0 < artificial_votes rs ∧
        human_votes rs = 0
    · rw [vote_outcome_band cfg n rs h1 h2]
      refine ⟨?_, fun _ => ⟨rfl, rfl⟩⟩
      simp only [true_iff]
      exact ⟨h2.1, h2.2.1, h2.2.2, by omega⟩
    · have hb : (vote_outcome cfg n rs).2.2.2 = false := by
        unfold vote_outcome
        rw [if_neg h1, if_neg h2]
        split
        · rfl
        · rfl
      rw [hb]
      constructor
      · simp only [Bool.false_eq_true, false_iff]
        rintro ⟨hc1, hc2, hc3, -⟩
        exact h2 ⟨hc1, hc2, hc3⟩
      · simp

/-- The confidence produced by the voting chain lies in `[0, 1]`. -/
theorem vote_outcome_confidence_bounds (cfg : ClassifierConfig) (n : Nat)
    (rs : List (String × SourceResult)) :
    0 ≤ (vote_outcome cfg n rs).2.1 ∧ (vote_outcome cfg n rs).2.1 ≤ 1 := by
  unfold vote_outcome
  split
  · exact ⟨le_min (by norm_num)
      (div_nonneg (Nat.cast_nonneg _) (Nat.cast_nonneg _)), min_le_left _ _⟩
  · split
    · exact ⟨le_min (by norm_num)
        (div_nonneg (Nat.cast_nonneg _) (Nat.cast_nonneg _)),
        (min_le_left _ _).trans (by norm_num)⟩
    · split
      · exact ⟨le_min (by norm_num)
          (div_nonneg (Nat.cast_nonneg _) (Nat.cast_nonneg _)), min_le_left _ _⟩
      · norm_num

/-! ## Helper lemmas about the monitor cycle -/

/-- Every non-rate-limited cycle leaves the backoff at the base poll
interval (lines 74–77 and 88–89 of `monitor.py`). -/
theorem monitor_cycle_backoff_reset (cfg : MonitorConfig) (now : Nat)
    (s : MonitorState) (i : CycleInput) (h : i ≠ CycleInput.rateLimited) :
    (monitor_cycle cfg now s i).1.current_backoff = cfg.poll_interval := by
  cases i with
  | noPlayback => rfl
  | rateLimited => exact absurd rfl h
  | snap p =>
    obtain ⟨playing, item⟩ := p
    cases playing with
    | false => rfl
    | true =>
      cases item with
      | none => rfl
      | some pi =>
        cases pi with
        | other ty => rfl
        | track t =>
          simp only [monitor_cycle]
          split
          · rfl
          · split
            · rfl
            · split
              · rfl
              · rfl

/-- The rate-limited cycle multiplies the backoff and caps it. -/
theorem monitor_cycle_backoff_rl (cfg : MonitorConfig) (now : Nat)
    (s : MonitorState) :
    (monitor_cycle cfg now s CycleInput.rateLimited).1.current_backoff =
      min (s.current_backoff * cfg.rate_limit_backoff) cfg.max_backoff := rfl

/-- A cycle never removes entries from the processed-track set. -/
theorem monitor_cycle_processed_mono (cfg : MonitorConfig) (now : Nat)
    (s : MonitorState) (i : CycleInput) (x : String)
    (hx : x ∈ s.processed_tracks) :
    x ∈ (monitor_cycle cfg now s i).1.processed_tracks := by
  cases i with
  | noPlayback => exact hx
  | rateLimited => exact hx
  | snap p =>
    obtain ⟨playing, item⟩ := p
    cases playing with
    | false => exact hx
    | true =>
      cases item with
      | none => exact hx
      | some pi =>
        cases pi with
        | other ty => exact hx
        | track t =>
          simp only [monitor_cycle]
          split
          · exact hx
          · split
            · exact hx
            · split
              · exact hx
              · exact List.mem_cons_of_mem _ hx

/-- A cycle hands a track to `_process_track` only if its id was not yet in
the processed set, and then records it there. -/
theorem monitor_cycle_event (cfg : MonitorConfig) (now : Nat)
    (s : MonitorState) (i : CycleInput) (t : TrackItem)
    (h : (monitor_cycle cfg now s i).2 = some t) :
    t.id ∉ s.processed_tracks ∧
    (monitor_cycle cfg now s i).1.processed_tracks =
      t.id :: s.processed_tracks := by
  cases i with
  | noPlayback => exact absurd h (by simp [monitor_cycle])
  | rateLimited => exact absurd h (by simp [monitor_cycle])
  | snap p =>
    obtain ⟨playing, item⟩ := p
    cases playing with
    | false => exact absurd h (by simp [monitor_cycle])
    | true =>
      cases item with
      | none => exact absurd h (by simp [monitor_cycle])
      | some pi =>
        cases pi with
        | other ty => exact absurd h (by simp [monitor_cycle])
        | track tr =>
          by_cases hlast : s.last_track_id = some tr.id
          · exact absurd h (by simp [monitor_cycle, hlast])
          · by_cases hproc : tr.id ∈ s.processed_tracks
            · exact absurd h (by simp [monitor_cycle, hlast, hproc])
            · obtain rfl : tr = t := by
                simpa [monitor_cycle, hlast, hproc] using h
              refine ⟨hproc, ?_⟩
              simp [monitor_cycle, hlast, hproc]

/-- One cycle keeps the backoff below the cap whenever the base interval is
below the cap. -/
theorem monitor_cycle_backoff_le (cfg : MonitorConfig) (now : Nat)
    (s : MonitorState) (i : CycleInput)
    (hbase : cfg.poll_interval ≤ cfg.max_backoff) :
    (monitor_cycle cfg now s i).1.current_backoff ≤ cfg.max_backoff := by
  by_cases h : i = CycleInput.rateLimited
  · subst h
    rw [monitor_cycle_backoff_rl]
    exact min_le_right _ _
  · rw [monitor_cycle_backoff_reset cfg now s i h]
    exact hbase

/-- Every backoff value reached during a run stays below the cap. -/
theorem backoff_trace_le (cfg : MonitorConfig)
    (hbase : cfg.poll_interval ≤ cfg.max_backoff) :
    ∀ (inputs : List (Nat × CycleInput)) (s : MonitorState),
      ∀ b ∈ backoff_trace cfg s inputs, b ≤ cfg.max_backoff := by
  intro inputs
  induction inputs with
  | nil => intro s b hb; simp [backoff_trace] at hb
  | cons p rest ih =>
    intro s b hb
    obtain ⟨now, i⟩ := p
    rw [backoff_trace, List.mem_cons] at hb
    rcases hb with rfl | hb
    · exact monitor_cycle_backoff_le cfg now s i hbase
    · exact ih _ b hb

/-- Over a run, the processed-track trace repeats no id, and never contains
an id that was in the processed set at the start of the run. -/
theorem run_monitor_nodup_aux (cfg : MonitorConfig) :
    ∀ (inputs : List (Nat × CycleInput)) (s : MonitorState),
      (run_monitor cfg s inputs).2.Nodup ∧
      ∀ x ∈ (run_monitor cfg s inputs).2, x ∉ s.processed_tracks := by
  intro inputs
  induction inputs with
  | nil => intro s; simp [run_monitor]
  | cons p rest ih =>
    intro s
    obtain ⟨now, i⟩ := p
    rw [run_monitor]
    cases he : (monitor_cycle cfg now s i).2 with
    | none =>
      simp only [he, Option.map_none', Option.toList_none, List.nil_append]
      refine ⟨(ih _).1, fun x hx hxs => (ih _).2 x hx ?_⟩
      exact monitor_cycle_processed_mono cfg now s i x hxs
    | some t =>
      obtain ⟨hnot, hset⟩ := monitor_cycle_event cfg now s i t he
      simp only [he, Option.map_some', Option.toList_some, List.singleton_append,
        List.nodup_cons]
      refine ⟨⟨fun hmem => ?_, (ih _).1⟩, ?_⟩
      · exact (ih _).2 t.id hmem (by rw [hset]; exact List.mem_cons_self _ _)
      · intro x hx hxs
        rcases List.mem_cons.mp hx with rfl | hx'
        · exact hnot hxs
        · exact (ih _).2 x hx' (by rw [hset]; exact List.mem_cons_of_mem _ hxs)

/-! ## Claim theorems -/

/-- C1: on a fresh evaluation (no override, no valid cache), when at least
`min_source_agreement` successful sources carry an artificial label, the
decision is artificial with confidence `min(1, votes/configured)`, label the
first artificial label in adapter iteration order, no band policy, and
`sources_agreeing` equal to the artificial vote count. -/
theorem C1_fresh_artificial_agreement (cfg : ClassifierConfig)
    (cls : List (String × AdapterOutcome)) (db_rows : List DbDecisionRow)
    (aid an : String) (now : Nat) (d : Decision)
    (hmin : 1 ≤ cfg.min_source_agreement)
    (hcache : get_cached_decision db_rows now = none)
    (hvotes : cfg.min_source_agreement ≤
      artificial_votes (source_results_of cls))
    (hd : d = (classify_artist cfg cls none db_rows aid an now).1) :
    d.is_artificial = some true ∧
    d.confidence =
      min 1 ((artificial_votes (source_results_of cls) : ℚ) /
        (cls.length : ℚ)) ∧
    (labels_found (source_results_of cls)).head? = some d.label ∧
    d.band_policy_applied = false ∧
    d.sources_agreeing = artificial_votes (source_results_of cls) := by
  subst hd
  have hvo := vote_outcome_artificial cfg cls.length (source_results_of cls)
    hvotes
  have hne : labels_found (source_results_of cls) ≠ [] := by
    intro h0
    have hlen := artificial_votes_eq_labels_length (source_results_of cls)
    rw [h0] at hlen
    simp only [List.length_nil] at hlen
    omega
  simp only [classify_artist, hcache, aggregate_sources, hvo]
  refine ⟨trivial, trivial, head?_eq_headD _ _ hne, trivial, rfl⟩

/-- C1 witness: Scenario A — three sources, threshold 2, Wikidata "vocaloid",
MusicBrainz "vtuber", Last.fm failing. -/
theorem C1_fresh_artificial_agreement_witness :
    1 ≤ cfgA.min_source_agreement ∧
    get_cached_decision [] 100 = none ∧
    cfgA.min_source_agreement ≤ artificial_votes (source_results_of clsA) ∧
    (dA.is_artificial = some true ∧
     dA.confidence =
       min 1 ((artificial_votes (source_results_of clsA) : ℚ) /
         (clsA.length : ℚ)) ∧
     (labels_found (source_results_of clsA)).head? = some dA.label ∧
     dA.band_policy_applied = false ∧
     dA.sources_agreeing = artificial_votes (source_results_of clsA)) ∧
    dA.sources_agreeing = 2 ∧ dA.confidence = 2/3 ∧ dA.label = "vocaloid" := by
  have hmain := C1_fresh_artificial_agreement cfgA clsA [] "a1" "Miku" 100 dA
    (by decide) rfl (by decide) rfl
  refine ⟨by decide, rfl, by decide, hmain, by decide, ?_, by decide⟩
  have h2 : artificial_votes (source_results_of clsA) = 2 := by decide
  have h3 : clsA.length = 3 := by decide
  rw [hmain.2.1, h2, h3]
  norm_num [min_def]

/-- C2: an override short-circuits `classify_artist`: the returned decision
carries the override's verdict with confidence 1.0, zero agreeing sources,
no band policy, and the rationale `"User override: "` followed by the
stored reason (a NULL reason renders as `None`), so whenever a reason is
present the rationale quotes it verbatim; no source adapter is invoked and
no decision is persisted, whatever is cached. -/
theorem C2_override_precedence (cfg : ClassifierConfig)
    (cls : List (String × AdapterOutcome)) (ov : Override)
    (db_rows : List DbDecisionRow) (aid an : String) (now : Nat) :
    classify_artist cfg cls (some ov) db_rows aid an now =
      (override_decision cfg aid an now ov,
       { sources_queried := 0, stored := none }) ∧
    (override_decision cfg aid an now ov).is_artificial =
      some ov.is_artificial ∧
    (override_decision cfg aid an now ov).confidence = 1 ∧
    (override_decision cfg aid an now ov).sources_agreeing = 0 ∧
    (override_decision cfg aid an now ov).band_policy_applied = false ∧
    (override_decision cfg aid an now ov).decision_reason =
      "User override: " ++ pyStr ov.reason ∧
    (∀ r, ov.reason = some r →
      (override_decision cfg aid an now ov).decision_reason =
        "User override: " ++ r) :=
  ⟨rfl, rfl, rfl, rfl, rfl, rfl,
   fun r hr => by simp only [override_decision, hr, pyStr]⟩

/-- C2 witness: a concrete override with reason "manual check"; the
rationale quotes it. -/
theorem C2_override_precedence_witness :
    classify_artist cfgA clsA (some ovA) [rowA] "a1" "Miku" 100 =
      (override_decision cfgA "a1" "Miku" 100 ovA,
       { sources_queried := 0, stored := none }) ∧
    (override_decision cfgA "a1" "Miku" 100 ovA).confidence = 1 ∧
    ovA.reason = some "manual check" ∧
    (override_decision cfgA "a1" "Miku" 100 ovA).decision_reason =
      "User override: manual check" :=
  ⟨(C2_override_precedence cfgA clsA ovA [rowA] "a1" "Miku" 100).1,
   (C2_override_precedence cfgA clsA ovA [rowA] "a1" "Miku" 100).2.2.1,
   rfl,
   (C2_override_precedence cfgA clsA ovA [rowA] "a1" "Miku"
     100).2.2.2.2.2.2 "manual check" rfl⟩

/-- The cache branch of `classify_artist` (lines 93–96): a valid cached row
is returned through `_decision_from_db`, with no adapter queried and no
write. -/
theorem classify_artist_cached (cfg : ClassifierConfig)
    (cls : List (String × AdapterOutcome)) (db_rows : List DbDecisionRow)
    (aid an : String) (now : Nat) (row : DbDecisionRow)
    (h : get_cached_decision db_rows now = some row) :
    classify_artist cfg cls none db_rows aid an now =
      (decision_from_db row, { sources_queried := 0, stored := none }) := by
  simp only [classify_artist]
  rw [h]

/-- C3 counterexample: the second call does hit the cache (no adapter
queried), but the returned decision is not byte-identical to the original —
`artist_name` comes back `""` instead of `"Miku"` and the per-source results
come back empty, because neither is stored in the `decisions` table. -/
theorem C3_counterexample :
    (classify_artist cfgA clsA none [rowA] "a1" "Miku" 200).2.sources_queried
      = 0 ∧
    (classify_artist cfgA clsA none [rowA] "a1" "Miku" 200).1.artist_name
      = "" ∧
    dA.artist_name = "Miku" ∧
    (classify_artist cfgA clsA none [rowA] "a1" "Miku" 200).1.sources = [] ∧
    dA.sources ≠ [] ∧
    (classify_artist cfgA clsA none [rowA] "a1" "Miku" 200).1 ≠ dA := by
  refine ⟨rfl, rfl, rfl, rfl, by decide, fun h => ?_⟩
  have hname := congrArg Decision.artist_name h
  rw [show (classify_artist cfgA clsA none [rowA] "a1" "Miku" 200).1.artist_name
      = "" from rfl, show dA.artist_name = "Miku" from rfl] at hname
  exact absurd hname (by decide)

/-- C3 (amended): within `cache_duration` of a fresh decision, a second call
with no override returns the decision reconstructed from the stored row
without querying any adapter: every persisted field (id, artist id, label,
verdict, confidence, agreement counts, threshold, band flag, llm flag,
rationale, cache expiry) matches the original verbatim, while `artist_name`
comes back as `""` and the per-source results as empty, since the
`decisions` table does not store them. -/
theorem C3_cache_short_circuit (cfg : ClassifierConfig)
    (cls cls' : List (String × AdapterOutcome)) (aid an : String)
    (now0 ts now1 : Nat) (d0 : Decision) (row : DbDecisionRow)
    (hd0 : d0 = (classify_artist cfg cls none [] aid an now0).1)
    (hrow : row = insert_decision_row d0 ts)
    (hfresh : now1 < now0 + cfg.cache_duration) :
    classify_artist cfg cls' none [row] aid an now1 =
      (decision_from_db row, { sources_queried := 0, stored := none }) ∧
    (decision_from_db row).decision_id = d0.decision_id ∧
    (decision_from_db row).artist_id = d0.artist_id ∧
    (decision_from_db row).label = d0.label ∧
    (decision_from_db row).is_artificial = d0.is_artificial ∧
    (decision_from_db row).confidence = d0.confidence ∧
    (decision_from_db row).sources_agreeing = d0.sources_agreeing ∧
    (decision_from_db row).min_required = d0.min_required ∧
    (decision_from_db row).band_policy_applied = d0.band_policy_applied ∧
    (decision_from_db row).llm_used = d0.llm_used ∧
    (decision_from_db row).decision_reason = d0.decision_reason ∧
    (decision_from_db row).cached_until = d0.cached_until ∧
    (decision_from_db row).artist_name = "" ∧
    (decision_from_db row).sources = [] := by
  subst hd0
  subst hrow
  have hcu : (insert_decision_row
      (classify_artist cfg cls none [] aid an now0).1 ts).cached_until =
      some (now0 + cfg.cache_duration) := rfl
  have hget : get_cached_decision
      [insert_decision_row (classify_artist cfg cls none [] aid an now0).1 ts]
      now1 = some (insert_decision_row
        (classify_artist cfg cls none [] aid an now0).1 ts) := by
    unfold get_cached_decision
    rw [List.filter_cons]
    simp [hcu, hfresh]
  exact ⟨classify_artist_cached cfg cls' _ aid an now1 _ hget,
    rfl, rfl, rfl, rfl, rfl, rfl, rfl, rfl, rfl, rfl, rfl, rfl, rfl⟩

/-- C3 witness: the amended theorem at the Scenario A instance, second call
100 seconds after the first. -/
theorem C3_cache_short_circuit_witness :
    dA = (classify_artist cfgA clsA none [] "a1" "Miku" 100).1 ∧
    rowA = insert_decision_row dA 100 ∧
    200 < 100 + cfgA.cache_duration ∧
    classify_artist cfgA clsA none [rowA] "a1" "Miku" 200 =
      (decision_from_db rowA, { sources_queried := 0, stored := none }) ∧
    (decision_from_db rowA).confidence = dA.confidence ∧
    (decision_from_db rowA).artist_name = "" := by
  have hmain := C3_cache_short_circuit cfgA clsA clsA "a1" "Miku" 100 100 200
    dA rowA rfl rfl (by decide)
  exact ⟨rfl, rfl, by decide, hmain.1, hmain.2.2.2.2.2.1,
    hmain.2.2.2.2.2.2.2.2.2.2.2.2.1⟩

/-- C4: on a fresh evaluation the band-policy fallback fires exactly when
the policy is enabled, there is at least one artificial vote, no human
vote, and the artificial votes fall short of the threshold; it then yields
an artificial verdict at confidence `min(0.8, votes/configured)`, and any
human or band vote suppresses it. -/
theorem C4_band_policy_guard (cfg : ClassifierConfig)
    (cls : List (String × AdapterOutcome)) (db_rows : List DbDecisionRow)
    (aid an : String) (now : Nat) (d : Decision)
    (hcache : get_cached_decision db_rows now = none)
    (hd : d = (classify_artist cfg cls none db_rows aid an now).1) :
    (d.band_policy_applied = true ↔
      (cfg.band_policy = true ∧
       0 < artificial_votes (source_results_of cls) ∧
       human_votes (source_results_of cls) = 0 ∧
       artificial_votes (source_results_of cls) < cfg.min_source_agreement)) ∧
    (d.band_policy_applied = true →
      d.is_artificial = some true ∧
      d.confidence = min (4/5 : ℚ)
        ((artificial_votes (source_results_of cls) : ℚ) /
          (cls.length : ℚ))) ∧
    (0 < human_votes (source_results_of cls) →
      d.band_policy_applied = false) := by
  subst hd
  simp only [classify_artist, hcache, aggregate_sources]
  have hiff := vote_outcome_band_iff cfg cls.length (source_results_of cls)
  refine ⟨hiff.1, hiff.2, ?_⟩
  intro hh
  cases hb : (vote_outcome cfg cls.length (source_results_of cls)).2.2.2 with
  | false => rfl
  | true =>
    have := (hiff.1.mp hb).2.2.1
    omega

/-- C4 witness: Scenario B — band policy on, threshold 2, only Wikidata
succeeds with "fictional"; the fallback fires with confidence 1/3. -/
theorem C4_band_policy_guard_witness :
    get_cached_decision [] 100 = none ∧
    ((classify_artist cfgA clsB none [] "a1" "G" 100).1.band_policy_applied
        = true ↔
      (cfgA.band_policy = true ∧
       0 < artificial_votes (source_results_of clsB) ∧
       human_votes (source_results_of clsB) = 0 ∧
       artificial_votes (source_results_of clsB) <
         cfgA.min_source_agreement)) ∧
    (classify_artist cfgA clsB none [] "a1" "G" 100).1.band_policy_applied
      = true ∧
    (classify_artist cfgA clsB none [] "a1" "G" 100).1.is_artificial
      = some true ∧
    (classify_artist cfgA clsB none [] "a1" "G" 100).1.confidence = 1/3 := by
  have hmain := C4_band_policy_guard cfgA clsB [] "a1" "G" 100
    (classify_artist cfgA clsB none [] "a1" "G" 100).1 rfl rfl
  have hbpa : (classify_artist cfgA clsB none [] "a1" "G" 100).1.band_policy_applied = true := by
    decide
  have hconf := (hmain.2.1 hbpa).2
  refine ⟨rfl, hmain.1, hbpa, (hmain.2.1 hbpa).1, ?_⟩
  rw [hconf, show artificial_votes (source_results_of clsB) = 1 from by decide,
    show clsB.length = 3 from by decide]
  norm_num [min_def]

/-- C5: adapter failures are captured as `success = false` results and
excluded from voting; when every configured source fails (threshold ≥ 1),
`classify_artist` still returns — and stores — a decision with label
"unknown", no verdict and confidence 0, rather than raising. -/
theorem C5_total_failure_still_decides (cfg : ClassifierConfig)
    (cls : List (String × AdapterOutcome)) (aid an : String) (now : Nat)
    (d : Decision) (e : ClassifyEffects)
    (hmin : 1 ≤ cfg.min_source_agreement)
    (hfail : ∀ p ∈ cls, (outcome_result p.2).success = false)
    (hde : (d, e) = classify_artist cfg cls none [] aid an now) :
    (∀ msg, (outcome_result (AdapterOutcome.err msg)).success = false) ∧
    d.label = "unknown" ∧ d.is_artificial = none ∧ d.confidence = 0 ∧
    e.stored = some d := by
  have hsr : successfulResults (source_results_of cls) = [] := by
    apply successfulResults_eq_nil
    intro p hp
    obtain ⟨q, hq, rfl⟩ := List.mem_map.mp hp
    exact hfail q hq
  have ha : artificial_votes (source_results_of cls) = 0 := by
    unfold artificial_votes
    rw [hsr]
    rfl
  have hh : human_votes (source_results_of cls) = 0 := by
    unfold human_votes
    rw [hsr]
    rfl
  have hvo := vote_outcome_of_no_votes cfg cls.length (source_results_of cls)
    hmin ha hh
  have hde' : d = (classify_artist cfg cls none [] aid an now).1 ∧
      e = (classify_artist cfg cls none [] aid an now).2 := by
    rw [← hde]
    exact ⟨rfl, rfl⟩
  obtain ⟨rfl, rfl⟩ := hde'
  simp only [classify_artist, aggregate_sources, get_cached_decision,
    List.filter_nil, List.head?, hvo]
  exact ⟨fun msg => rfl, trivial, trivial, trivial, trivial⟩

/-- C5 witness: three configured sources, all raising. -/
theorem C5_total_failure_still_decides_witness :
    1 ≤ cfgA.min_source_agreement ∧
    (∀ p ∈ clsFail, (outcome_result p.2).success = false) ∧
    ((classify_artist cfgA clsFail none [] "a1" "G" 100).1,
     (classify_artist cfgA clsFail none [] "a1" "G" 100).2) =
      classify_artist cfgA clsFail none [] "a1" "G" 100 ∧
    (classify_artist cfgA clsFail none [] "a1" "G" 100).1.label = "unknown" ∧
    (classify_artist cfgA clsFail none [] "a1" "G" 100).1.is_artificial
      = none := by
  have hmain := C5_total_failure_still_decides cfgA clsFail "a1" "G" 100
    (classify_artist cfgA clsFail none [] "a1" "G" 100).1
    (classify_artist cfgA clsFail none [] "a1" "G" 100).2
    (by decide) (by decide) rfl
  exact ⟨by decide, by decide, rfl, hmain.2.1, hmain.2.2.1⟩

/-- C6: as long as the base poll interval is below the cap, the backoff
value after every cycle of a run stays below `max_backoff`; a rate-limit
cycle updates it to `min(backoff × multiplier, max_backoff)` and every
other cycle resets it to the base poll interval. -/
theorem C6_backoff_bounds (cfg : MonitorConfig)
    (inputs : List (Nat × CycleInput))
    (hbase : cfg.poll_interval ≤ cfg.max_backoff) :
    (∀ b ∈ backoff_trace cfg (monitor_init cfg) inputs,
      b ≤ cfg.max_backoff) ∧
    (∀ (now : Nat) (s : MonitorState),
      (monitor_cycle cfg now s CycleInput.rateLimited).1.current_backoff =
        min (s.current_backoff * cfg.rate_limit_backoff) cfg.max_backoff) ∧
    (∀ (now : Nat) (s : MonitorState) (i : CycleInput),
      i ≠ CycleInput.rateLimited →
      (monitor_cycle cfg now s i).1.current_backoff = cfg.poll_interval) :=
  ⟨backoff_trace_le cfg hbase inputs (monitor_init cfg),
   fun now s => monitor_cycle_backoff_rl cfg now s,
   fun now s i h => monitor_cycle_backoff_reset cfg now s i h⟩

/-- C6 witness: Scenario D — base 2s, multiplier 2, cap 30s; five
consecutive rate-limit cycles give backoffs 4, 8, 16, 30, 30, all below the
cap. -/
theorem C6_backoff_bounds_witness :
    mcfgD.poll_interval ≤ mcfgD.max_backoff ∧
    backoff_trace mcfgD (monitor_init mcfgD) rlInputs5 =
      [4, 8, 16, 30, 30] ∧
    ∀ b ∈ backoff_trace mcfgD (monitor_init mcfgD) rlInputs5,
      b ≤ mcfgD.max_backoff := by
  refine ⟨by norm_num [mcfgD], ?_,
    (C6_backoff_bounds mcfgD rlInputs5 (by norm_num [mcfgD])).1⟩
  norm_num [rlInputs5, backoff_trace, monitor_cycle, monitor_init, mcfgD,
    min_def]

/-- C7: within one run, the sequence of tracks handed to `_process_track`
never repeats a track id, and a cycle never processes a track whose id is
already in the session's processed set. -/
theorem C7_session_once_guard (cfg : MonitorConfig)
    (inputs : List (Nat × CycleInput)) :
    ((run_monitor cfg (monitor_init cfg) inputs).2).Nodup ∧
    (∀ (now : Nat) (s : MonitorState) (i : CycleInput) (t : TrackItem),
      t.id ∈ s.processed_tracks →
      (monitor_cycle cfg now s i).2 ≠ some t) :=
  ⟨(run_monitor_nodup_aux cfg inputs (monitor_init cfg)).1,
   fun now s i t ht he => (monitor_cycle_event cfg now s i t he).1 ht⟩

/-- C7 witness: a run where `t1` recurs (with `t2` in between) processes
`t1`, `t2`, `t3` once each. -/
theorem C7_session_once_guard_witness :
    (run_monitor mcfgD (monitor_init mcfgD) sessionInputs).2 =
      ["t1", "t2", "t3"] ∧
    ((run_monitor mcfgD (monitor_init mcfgD) sessionInputs).2).Nodup :=
  ⟨by decide, (C7_session_once_guard mcfgD sessionInputs).1⟩

/-- C8: the confidence of every aggregated decision and of every
override-derived decision lies in `[0, 1]`, for any source results, any
configured-source count, any threshold ≥ 1 and either band-policy setting. -/
theorem C8_confidence_bounds (cfg : ClassifierConfig)
    (hmin : 1 ≤ cfg.min_source_agreement) :
    (∀ (n : Nat) (aid an : String) (now : Nat)
        (rs : List (String × SourceResult)),
      0 ≤ (aggregate_sources cfg n aid an now rs).confidence ∧
      (aggregate_sources cfg n aid an now rs).confidence ≤ 1) ∧
    (∀ (aid an : String) (now : Nat) (ov : Override),
      0 ≤ (override_decision cfg aid an now ov).confidence ∧
      (override_decision cfg aid an now ov).confidence ≤ 1) := by
  constructor
  · intro n aid an now rs
    exact vote_outcome_confidence_bounds cfg n rs
  · intro aid an now ov
    norm_num [override_decision]

/-- C8 witness: the bounds at the Scenario A aggregation and at a concrete
override. -/
theorem C8_confidence_bounds_witness :
    1 ≤ cfgA.min_source_agreement ∧
    (0 ≤ (aggregate_sources cfgA 3 "a1" "Miku" 100
        (source_results_of clsA)).confidence ∧
     (aggregate_sources cfgA 3 "a1" "Miku" 100
        (source_results_of clsA)).confidence ≤ 1) ∧
    (0 ≤ (override_decision cfgA "a1" "Miku" 100 ovA).confidence ∧
     (override_decision cfgA "a1" "Miku" 100 ovA).confidence ≤ 1) :=
  ⟨by decide,
   (C8_confidence_bounds cfgA (by decide)).1 3 "a1" "Miku" 100
     (source_results_of clsA),
   (C8_confidence_bounds cfgA (by decide)).2 "a1" "Miku" 100 ovA⟩

/-- C9: `get_current_playback` maps every provider exception (rate limiting
included) to `None` and can never produce the `"rate_limited"` sentinel the
monitor tests for, so a monitor polling through the client resets its
backoff to the base poll interval on every cycle. -/
theorem C9_client_rate_limit_unreachable (auth : Bool) (o : ProviderOutcome)
    (cfg : MonitorConfig) (now : Nat) (s : MonitorState) :
    client_cycle_input auth o ≠ CycleInput.rateLimited ∧
    (∀ msg, get_current_playback auth (ProviderOutcome.raised msg) = none) ∧
    (monitor_cycle cfg now s (client_cycle_input auth o)).1.current_backoff =
      cfg.poll_interval := by
  have hne : client_cycle_input auth o ≠ CycleInput.rateLimited := by
    unfold client_cycle_input
    cases get_current_playback auth o <;> simp
  refine ⟨hne, ?_, monitor_cycle_backoff_reset cfg now s _ hne⟩
  intro msg
  unfold get_current_playback
  cases auth <;> rfl

/-- C9 witness: a raised rate-limit error, observed through the client, is
not the sentinel, and the cycle it produces resets the backoff. -/
theorem C9_client_rate_limit_unreachable_witness :
    client_cycle_input true (ProviderOutcome.raised "429 too many requests")
      ≠ CycleInput.rateLimited ∧
    (monitor_cycle mcfgD 0 (monitor_init mcfgD)
      (client_cycle_input true
        (ProviderOutcome.raised "429 too many requests"))).1.current_backoff
      = mcfgD.poll_interval :=
  ⟨(C9_client_rate_limit_unreachable true
      (ProviderOutcome.raised "429 too many requests") mcfgD 0
      (monitor_init mcfgD)).1,
   (C9_client_rate_limit_unreachable true
      (ProviderOutcome.raised "429 too many requests") mcfgD 0
      (monitor_init mcfgD)).2.2⟩

/-- C10: with threshold ≥ 1, every voting branch that divides by the
configured-source count is only reachable with at least one configured
classifier, and with zero classifiers the aggregation always falls through
to the inconclusive branch — so the divisions of `_aggregate_sources`
never divide by zero. -/
theorem C10_no_division_by_zero (cfg : ClassifierConfig)
    (cls : List (String × AdapterOutcome)) (aid an : String) (now : Nat)
    (d : Decision) (hmin : 1 ≤ cfg.min_source_agreement)
    (hd : d = aggregate_sources cfg cls.length aid an now
      (source_results_of cls)) :
    (d.is_artificial ≠ none → 1 ≤ cls.length) ∧
    (cls = [] →
      d.is_artificial = none ∧ d.label = "unknown" ∧ d.confidence = 0) := by
  subst hd
  constructor
  · intro hart
    have hale : artificial_votes (source_results_of cls) ≤ cls.length := by
      have := artificial_votes_le (source_results_of cls)
      rwa [source_results_of_length] at this
    have hhle : human_votes (source_results_of cls) ≤ cls.length := by
      have := human_votes_le (source_results_of cls)
      rwa [source_results_of_length] at this
    revert hart
    simp only [aggregate_sources]
    unfold vote_outcome
    split
    · intro _; omega
    · split
      next h2 => intro _; omega
      · split
        · intro _; omega
        · intro hart; exact absurd rfl hart
  · rintro rfl
    have hvo := vote_outcome_of_no_votes cfg 0 (source_results_of []) hmin
      rfl rfl
    simp only [aggregate_sources, List.length_nil, hvo]
    exact ⟨trivial, trivial, trivial⟩

/-- C10 witness: zero configured classifiers fall through to the
inconclusive branch. -/
theorem C10_no_division_by_zero_witness :
    1 ≤ cfgA.min_source_agreement ∧
    ((aggregate_sources cfgA
        (List.length ([] : List (String × AdapterOutcome))) "a1" "G" 100
        (source_results_of [])).is_artificial ≠ none →
      1 ≤ List.length ([] : List (String × AdapterOutcome))) ∧
    (aggregate_sources cfgA
        (List.length ([] : List (String × AdapterOutcome))) "a1" "G" 100
        (source_results_of [])).is_artificial = none := by
  have hmain := C10_no_division_by_zero cfgA [] "a1" "G" 100
    (aggregate_sources cfgA
      (List.length ([] : List (String × AdapterOutcome))) "a1" "G" 100
      (source_results_of [])) (by decide) rfl
  exact ⟨by decide, hmain.1, (hmain.2 rfl).1⟩

end SpotifyStopAI
